import Mathlib

/-!
Shallow embedding of the UAC FastAPI service (user access control API):
role parsing and the role-based authorization guard (`app/utils/permissions.py`),
the user service (`app/services/user_service.py`), the auth router
(`app/routers/auth.py`), the admin role-assignment route
(`app/routers/admin.py`), and the bearer-token resolution dependency
(`app/dependencies.py`).  External collaborators that live outside the
embedded core (the password hasher and the token verifier from
`app/utils/security.py`) are passed in as function parameters, matching the
spec's description of them as external collaborators.
-/

namespace UAC

/-! ## String utilities: Python `str.split(',')` and `str.strip()` -/

/-- ASCII whitespace recognized by the embedding of Python `str.strip()`. -/
def isSpaceChar (c : Char) : Bool :=
  c == ' ' || c == '\t' || c == '\n' || c == '\r'

/-- Embedding of Python `str.strip()`: drop leading and trailing whitespace. -/
def pyStrip (s : String) : String :=
  String.mk (((s.toList.dropWhile isSpaceChar).reverse.dropWhile isSpaceChar).reverse)

/-- Auxiliary splitter: accumulates the current segment (reversed) and splits
on commas, keeping empty segments exactly as Python `str.split(',')` does. -/
def splitCommaAux : List Char → List Char → List String
  | [], acc => [String.mk acc.reverse]
  | c :: cs, acc =>
      if c == ',' then String.mk acc.reverse :: splitCommaAux cs []
      else splitCommaAux cs (c :: acc)

/-- Embedding of Python `s.split(',')`: always returns at least one segment,
and a trailing comma yields a trailing empty segment. -/
def splitComma (s : String) : List String :=
  splitCommaAux s.toList []

/-- Embedding of `[role.strip() for role in s.split(',')]` — the CSV role parse used by
both the guard and the role-assignment validator. -/
def splitRoles (s : String) : List String :=
  (splitComma s).map pyStrip

/-- Python truthiness test `not x` for a nullable string column:
true exactly when the value is `None` or the empty string. -/
def falsyStr : Option String → Bool
  | none => true
  | some s => s == ""

/-! ## Data model: the `User` ORM row (`app/models/user.py`) -/

/-- The `users` table row.  Timestamps are modelled as natural numbers and
nullable columns as `Option`. -/
structure User where
  user_id : Nat
  username : String
  email : String
  password_hash : String
  first_name : Option String
  middle_name : Option String
  last_name : Option String
  date_created : Nat
  last_login : Option Nat
  is_active : Bool
  user_level_id : Option String
  reports_to_user_id : Option Nat
  photo : Option String
  mobile_number : Option String
  department_id : Option Nat
  profile : Option String
  deriving Repr, DecidableEq

/-! ## HTTP errors (`fastapi.HTTPException` status and detail) -/

/-- An `HTTPException`: status code plus detail message. -/
structure HttpError where
  status : Nat
  detail : String
  deriving Repr, DecidableEq

/-- The 403 "User has no assigned role" — the `NoRoleAssigned` failure. -/
def noRoleAssignedErr : HttpError := ⟨403, "User has no assigned role"⟩

/-- The 403 "Insufficient permissions" — the `Forbidden` failure. -/
def forbiddenErr : HttpError := ⟨403, "Insufficient permissions"⟩

/-- The 404 "User not found" — the `UserNotFound` failure. -/
def userNotFoundErr : HttpError := ⟨404, "User not found"⟩

/-- The 400 "Invalid role ID: …" — the `InvalidRole` failure, naming the
offending code. -/
def invalidRoleErr (code : String) : HttpError :=
  ⟨400, "Invalid role ID: " ++ code ++ ". Valid roles are: 1, 2, 3"⟩

/-- The 400 "Username already registered" — the `DuplicateUsername` failure. -/
def usernameRegisteredErr : HttpError := ⟨400, "Username already registered"⟩

/-- The 400 "Email already registered" — the `DuplicateEmail` failure. -/
def emailRegisteredErr : HttpError := ⟨400, "Email already registered"⟩

/-- The 400 "User registration failed due to data conflict" — the generic
registration-conflict failure mapped from a store `IntegrityError`. -/
def registrationConflictErr : HttpError :=
  ⟨400, "User registration failed due to data conflict"⟩

/-- The 401 "Could not validate credentials" — the generic bearer-token failure. -/
def credentialsExc : HttpError :=
  ⟨401, "Could not validate credentials"⟩

/-- The 400 "Inactive user" — bearer token resolves to an inactive account. -/
def inactiveUserErr : HttpError := ⟨400, "Inactive user"⟩

/-! ## Role guard (`app/utils/permissions.py`) -/

/-- Embedding of `RoleChecker`: holds the allowed-role set as a list of code strings. -/
structure RoleChecker where
  allowed_roles : List String
  deriving Repr, DecidableEq

/-- Embedding of `RoleChecker.__call__`: reject with 403 `NoRoleAssigned` when the role
string is null/empty, otherwise parse the CSV role string and reject with
403 `Forbidden` unless some parsed role is among the allowed roles. -/
def RoleChecker.call (rc : RoleChecker) (current_user : User) : Except HttpError User :=
  if falsyStr current_user.user_level_id then
    Except.error noRoleAssignedErr
  else
    let user_roles := splitRoles (current_user.user_level_id.getD "")
    if user_roles.any (fun role => rc.allowed_roles.contains role) then
      Except.ok current_user
    else
      Except.error forbiddenErr

/-- The guard `require_admin = RoleChecker([UserRole.ADMIN])`. -/
def require_admin : RoleChecker := ⟨["1"]⟩

/-- The guard `require_manager_or_admin = RoleChecker([ADMIN, MANAGER])`. -/
def require_manager_or_admin : RoleChecker := ⟨["1", "2"]⟩

/-- The guard `require_any_role = RoleChecker([ADMIN, MANAGER, GENERAL_USER])`. -/
def require_any_role : RoleChecker := ⟨["1", "2", "3"]⟩

/-- Embedding of `get_user_roles`: `[]` when the role string is null/empty, otherwise the
comma-split, trimmed role list. -/
def get_user_roles (u : User) : List String :=
  match u.user_level_id with
  | none => []
  | some s => if s == "" then [] else splitRoles s

/-- Embedding of `has_role`: membership of a single role code in the parsed role list. -/
def has_role (u : User) (role : String) : Bool :=
  (get_user_roles u).contains role

/-! ## Store queries (`app/services/user_service.py`) -/

/-- Embedding of `get_user_by_username`: first row whose `username` equals the argument. -/
def get_user_by_username (db : List User) (username : String) : Option User :=
  db.find? (fun u => u.username == username)

/-- Embedding of `get_user_by_email`: first row whose `email` equals the argument. -/
def get_user_by_email (db : List User) (email : String) : Option User :=
  db.find? (fun u => u.email == email)

/-- Embedding of `get_user_by_username_or_email`: first row matching the identifier by
exact equality on `username` OR `email`. -/
def get_user_by_username_or_email (db : List User) (identifier : String) : Option User :=
  db.find? (fun u => u.username == identifier || u.email == identifier)

/-- Embedding of `findById`: the `select(User).where(User.user_id == user_id)` lookup used
by the admin role-assignment route. -/
def findById (db : List User) (user_id : Nat) : Option User :=
  db.find? (fun u => u.user_id == user_id)

/-- Replace the row with the given id, leaving every other row unchanged —
the effect of mutating a fetched ORM object and committing. -/
def updateById (db : List User) (user_id : Nat) (u : User) : List User :=
  db.map (fun v => if v.user_id == user_id then u else v)

/-! ## Registration input (`app/schemas/user.py` `UserCreate`) -/

/-- The `UserCreate` request body.  It has no role field: no role value can
be supplied at registration. -/
structure UserCreate where
  username : String
  email : String
  first_name : Option String
  middle_name : Option String
  last_name : Option String
  mobile_number : Option String
  password : String
  deriving Repr, DecidableEq

/-- Embedding of `UserService.create_user`: hash the password and build the new row with
the given role (the call site passes the hardcoded default `"3"`) and
`is_active = True`.  `hash` is the external password hasher, `nid` the id the
store assigns, `now` the server-default creation timestamp. -/
def create_user (hash : String → String) (nid : Nat) (now : Nat)
    (user_data : UserCreate) (default_role : String) : User :=
  { user_id := nid
    username := user_data.username
    email := user_data.email
    password_hash := hash user_data.password
    first_name := user_data.first_name
    middle_name := user_data.middle_name
    last_name := user_data.last_name
    date_created := now
    last_login := none
    is_active := true
    user_level_id := some default_role
    reports_to_user_id := none
    photo := none
    mobile_number := user_data.mobile_number
    department_id := none
    profile := none }

/-- Embedding of `UserService.authenticate_user`: look up by username-or-email, then
check the password against the stored hash, then the active flag; every
failure returns the same `none` sentinel.  `verify` is the external
password verifier `verify_password(plain, hashed)`. -/
def authenticate_user (verify : String → String → Bool) (db : List User)
    (username : String) (password : String) : Option User :=
  match get_user_by_username_or_email db username with
  | none => none
  | some user =>
      if !(verify password user.password_hash) then none
      else if !user.is_active then none
      else some user

/-! ## Public user view (`app/schemas/user.py` `UserResponse`) -/

/-- The `UserResponse` schema: the public view of a user.  It has no
password field of any kind. -/
structure UserResponse where
  username : String
  email : String
  first_name : Option String
  middle_name : Option String
  last_name : Option String
  mobile_number : Option String
  user_id : Nat
  date_created : Nat
  last_login : Option Nat
  is_active : Bool
  user_level_id : Option String
  department_id : Option Nat
  deriving Repr, DecidableEq

/-- Embedding of `UserResponse.model_validate(user)`: project the ORM row onto the
response schema's fields. -/
def UserResponse.model_validate (u : User) : UserResponse :=
  { username := u.username
    email := u.email
    first_name := u.first_name
    middle_name := u.middle_name
    last_name := u.last_name
    mobile_number := u.mobile_number
    user_id := u.user_id
    date_created := u.date_created
    last_login := u.last_login
    is_active := u.is_active
    user_level_id := u.user_level_id
    department_id := u.department_id }

/-- A serialized JSON value of the response. -/
inductive JsonVal where
  | str (s : String)
  | num (n : Int)
  | bool (b : Bool)
  | null
  deriving Repr, DecidableEq

/-- Serialize an optional string field. -/
def optStr : Option String → JsonVal
  | none => JsonVal.null
  | some s => JsonVal.str s

/-- Serialize an optional integer field. -/
def optNum : Option Nat → JsonVal
  | none => JsonVal.null
  | some n => JsonVal.num n

/-- The serialization of a `UserResponse`: field names paired with values,
exactly the schema's declared fields. -/
def UserResponse.toJson (r : UserResponse) : List (String × JsonVal) :=
  [ ("username", JsonVal.str r.username)
  , ("email", JsonVal.str r.email)
  , ("first_name", optStr r.first_name)
  , ("middle_name", optStr r.middle_name)
  , ("last_name", optStr r.last_name)
  , ("mobile_number", optStr r.mobile_number)
  , ("user_id", JsonVal.num r.user_id)
  , ("date_created", JsonVal.num r.date_created)
  , ("last_login", optNum r.last_login)
  , ("is_active", JsonVal.bool r.is_active)
  , ("user_level_id", optStr r.user_level_id)
  , ("department_id", optNum r.department_id) ]

/-- The field names of the public user view. -/
def responseFieldNames : List String :=
  [ "username", "email", "first_name", "middle_name", "last_name"
  , "mobile_number", "user_id", "date_created", "last_login", "is_active"
  , "user_level_id", "department_id" ]

/-! ## Registration route (`app/routers/auth.py` `register`) -/

/-- The store's uniqueness backstop: an insert raises `IntegrityError`
exactly when some existing row already holds the username or the email. -/
def violates_unique (db : List User) (username email : String) : Bool :=
  db.any (fun u => u.username == username || u.email == email)

/-- Embedding of `insert`: append the row unless the uniqueness constraint is violated,
in which case the store raises (`IntegrityError`, modelled as `error`). -/
def insert_user (db : List User) (u : User) : Except Unit (List User) :=
  if violates_unique db u.username u.email then Except.error ()
  else Except.ok (db ++ [u])

/-- Embedding of `POST /register`: username pre-check first, then email pre-check, then
create and insert; an `IntegrityError` at insert time (possible because the
store may have changed between the pre-checks on snapshot `db0` and the
insert on snapshot `db1`) is caught, rolled back and mapped to the generic
registration-conflict error.  Returns the resulting store and either an
`HttpError` or the public view of the new user. -/
def register (hash : String → String) (nid : Nat) (now : Nat)
    (db0 : List User) (db1 : List User) (user_data : UserCreate) :
    List User × Except HttpError UserResponse :=
  match get_user_by_username db0 user_data.username with
  | some _ => (db1, Except.error usernameRegisteredErr)
  | none =>
    match get_user_by_email db0 user_data.email with
    | some _ => (db1, Except.error emailRegisteredErr)
    | none =>
      let u := create_user hash nid now user_data "3"
      match insert_user db1 u with
      | Except.error _ => (db1, Except.error registrationConflictErr)
      | Except.ok db2 => (db2, Except.ok (UserResponse.model_validate u))

/-! ## Bearer-token resolution (`app/dependencies.py` `get_current_user`) -/

/-- Embedding of `get_current_user`: verify the bearer token (the external
`verify_token`, returning the subject username or `None`), load the user by
username, and reject inactive accounts with a distinct 400 error. -/
def get_current_user (verify_token : String → Option String) (db : List User)
    (token : String) : Except HttpError User :=
  match verify_token token with
  | none => Except.error credentialsExc
  | some username =>
    match get_user_by_username db username with
    | none => Except.error credentialsExc
    | some user =>
      if !user.is_active then Except.error inactiveUserErr
      else Except.ok user

/-! ## Admin role assignment (`app/routers/admin.py` `assign_user_role`) -/

/-- The constant `valid_roles = ["1", "2", "3"]`. -/
def valid_roles : List String := ["1", "2", "3"]

/-- The confirmation payload returned on successful role assignment. -/
structure AssignResponse where
  message : String
  user_id : Nat
  username : String
  new_roles : String
  assigned_by : String
  deriving Repr, DecidableEq

/-- Embedding of `POST /admin/assign-role/{user_id}`: the acting user must pass the
admin-only guard; the target is looked up by id (404 on miss); each trimmed
segment of the proposed CSV is validated against `valid_roles`, failing with
400 on the first offending code; otherwise the target's `user_level_id` is
overwritten with the proposed string verbatim and committed.  Returns the
resulting store and either an `HttpError` or the confirmation payload. -/
def assign_user_role (db : List User) (current_user : User) (user_id : Nat)
    (role_ids : String) : List User × Except HttpError AssignResponse :=
  match RoleChecker.call require_admin current_user with
  | Except.error e => (db, Except.error e)
  | Except.ok _ =>
    match findById db user_id with
    | none => (db, Except.error userNotFoundErr)
    | some target =>
      let roles := splitRoles role_ids
      match roles.find? (fun role => !(valid_roles.contains role)) with
      | some bad => (db, Except.error (invalidRoleErr bad))
      | none =>
        let updated := { target with user_level_id := some role_ids }
        (updateById db user_id updated,
         Except.ok
           { message := "Roles assigned successfully to user " ++ target.username
             user_id := user_id
             username := target.username
             new_roles := role_ids
             assigned_by := current_user.username })

/-! ## Sample data used to exercise the definitions on concrete inputs -/

/-- A concrete administrator (role string `"1"`). -/
def adminUser : User :=
  { user_id := 10, username := "admin", email := "admin@x.com"
    password_hash := "H:adminpw", first_name := none, middle_name := none
    last_name := none, date_created := 0, last_login := none
    is_active := true, user_level_id := some "1", reports_to_user_id := none
    photo := none, mobile_number := none, department_id := none, profile := none }

/-- A concrete general user (role string `"3"`). -/
def aliceUser : User :=
  { user_id := 1, username := "alice", email := "alice@x.com"
    password_hash := "H:alicepw", first_name := none, middle_name := none
    last_name := none, date_created := 0, last_login := none
    is_active := true, user_level_id := some "3", reports_to_user_id := none
    photo := none, mobile_number := none, department_id := none, profile := none }

/-- A concrete deactivated user. -/
def bobUser : User :=
  { user_id := 2, username := "bob", email := "bob@x.com"
    password_hash := "H:bobpw", first_name := none, middle_name := none
    last_name := none, date_created := 0, last_login := none
    is_active := false, user_level_id := some "3", reports_to_user_id := none
    photo := none, mobile_number := none, department_id := none, profile := none }

/-- A concrete store holding the three sample users. -/
def sampleDb : List User := [adminUser, aliceUser, bobUser]

/-- A concrete registration input. -/
def carolCreate : UserCreate :=
  { username := "carol", email := "carol@x.com", first_name := none
    middle_name := none, last_name := none, mobile_number := none
    password := "password123" }

/-- A concrete password hasher for sample runs. -/
def sampleHash (s : String) : String := "H:" ++ s

/-- A concrete password verifier matching `sampleHash`. -/
def sampleVerify (password : String) (hashed : String) : Bool :=
  hashed == "H:" ++ password

/-- A concrete token verifier: one known token per sample user. -/
def sampleVerifyToken (token : String) : Option String :=
  if token == "tok-admin" then some "admin"
  else if token == "tok-alice" then some "alice"
  else if token == "tok-bob" then some "bob"
  else none

/-- Replace only the password of a registration input, leaving every other
field unchanged. -/
def setPassword (d : UserCreate) (p : String) : UserCreate :=
  { d with password := p }

/-! ## Helper lemmas -/

/-- The guard's `any`-over-`contains` test is the nonempty-intersection
test between the parsed roles and the allowed roles. -/
theorem any_contains_iff (l al : List String) :
    (l.any fun role => al.contains role) = true ↔ ∃ r, r ∈ l ∧ r ∈ al := by
  rw [List.any_eq_true]; simp

/-- A null or empty role string parses (via `getD ""`) to the single empty
segment. -/
theorem falsy_splitRoles (o : Option String) (h : falsyStr o = true) :
    splitRoles (o.getD "") = [""] := by
  cases o with
  | none => decide
  | some s =>
      simp only [falsyStr, beq_iff_eq] at h
      subst h
      decide

/-- Characterization of guard success: the result is `ok` exactly when it
returns the argument unchanged, the role string is non-null and non-empty,
and the parsed roles meet the allowed roles. -/
theorem roleChecker_call_ok_iff (rc : RoleChecker) (u v : User) :
    RoleChecker.call rc u = Except.ok v ↔
      v = u ∧ falsyStr u.user_level_id = false ∧
        ∃ r, r ∈ splitRoles (u.user_level_id.getD "") ∧ r ∈ rc.allowed_roles := by
  have hiff := any_contains_iff (splitRoles (u.user_level_id.getD "")) rc.allowed_roles
  by_cases h : falsyStr u.user_level_id
  · simp [RoleChecker.call, h]
  · rw [Bool.not_eq_true] at h
    by_cases hany : ((splitRoles (u.user_level_id.getD "")).any
        fun role => rc.allowed_roles.contains role) = true
    · have hex := hiff.mp hany
      simp only [RoleChecker.call, h, Bool.false_eq_true, if_false, hany, if_true,
        Except.ok.injEq, hex, and_true]
      exact ⟨fun hv => hv.symm, fun hv => hv.symm⟩
    · rw [Bool.not_eq_true] at hany
      have hnex : ¬ ∃ r, r ∈ splitRoles (u.user_level_id.getD "") ∧ r ∈ rc.allowed_roles := by
        intro hc; have := hiff.mpr hc; rw [hany] at this; cases this
      simp [RoleChecker.call, h, hany, hnex]

/-- Guard failure on a null/empty role string. -/
theorem roleChecker_call_noRole (rc : RoleChecker) (u : User)
    (h : falsyStr u.user_level_id = true) :
    RoleChecker.call rc u = Except.error noRoleAssignedErr := by
  simp [RoleChecker.call, h]

/-- Guard failure on empty intersection with a present role string. -/
theorem roleChecker_call_forbidden (rc : RoleChecker) (u : User)
    (h : falsyStr u.user_level_id = false)
    (hnex : ¬ ∃ r, r ∈ splitRoles (u.user_level_id.getD "") ∧ r ∈ rc.allowed_roles) :
    RoleChecker.call rc u = Except.error forbiddenErr := by
  have hany : ((splitRoles (u.user_level_id.getD "")).any
      fun role => rc.allowed_roles.contains role) = false := by
    cases hb : ((splitRoles (u.user_level_id.getD "")).any
        fun role => rc.allowed_roles.contains role) with
    | false => rfl
    | true => exact absurd ((any_contains_iff _ _).mp hb) hnex
  simp only [RoleChecker.call, h, Bool.false_eq_true, if_false, hany]

/-! ## Claims -/

/-- C1: for every guard built from an allowed-role set, `check` fails with
`NoRoleAssigned` when the user's role string is null/empty; otherwise it
succeeds exactly when the comma-split, trimmed role set meets the allowed
set, failing with `Forbidden` on empty intersection; on success it returns
the user unchanged; and for the admin-only guard `{1}` success is exactly
membership of `"1"` in the parsed role set. -/
theorem roleChecker_gate_correct (allowed : List String) (u : User) :
    (falsyStr u.user_level_id = true →
      RoleChecker.call ⟨allowed⟩ u = Except.error noRoleAssignedErr) ∧
    (falsyStr u.user_level_id = false →
      (RoleChecker.call ⟨allowed⟩ u = Except.ok u ↔
        ∃ r, r ∈ splitRoles (u.user_level_id.getD "") ∧ r ∈ allowed)) ∧
    (falsyStr u.user_level_id = false →
      (¬ ∃ r, r ∈ splitRoles (u.user_level_id.getD "") ∧ r ∈ allowed) →
      RoleChecker.call ⟨allowed⟩ u = Except.error forbiddenErr) ∧
    (∀ v, RoleChecker.call ⟨allowed⟩ u = Except.ok v → v = u) ∧
    (RoleChecker.call require_admin u = Except.ok u ↔
      "1" ∈ splitRoles (u.user_level_id.getD "")) := by
  refine ⟨fun h => roleChecker_call_noRole _ u h,
    fun h => ?_,
    fun h hnex => roleChecker_call_forbidden _ u h hnex,
    fun v hv => ((roleChecker_call_ok_iff _ u v).mp hv).1,
    ?_⟩
  · rw [roleChecker_call_ok_iff]
    simp [h]
  · rw [roleChecker_call_ok_iff]
    constructor
    · rintro ⟨-, -, r, hr, hra⟩
      have hr1 : r = "1" := by simpa [require_admin] using hra
      rwa [hr1] at hr
    · intro h1
      have hfal : falsyStr u.user_level_id = false := by
        cases hf : falsyStr u.user_level_id with
        | false => rfl
        | true =>
            rw [falsy_splitRoles _ hf] at h1
            exact absurd h1 (by decide)
      exact ⟨rfl, hfal, "1", h1, by simp [require_admin]⟩

/-- Witness for C1: the concrete admin user passes the admin-only guard,
obtained from the theorem's admin-guard characterization. -/
theorem roleChecker_gate_correct_witness :
    RoleChecker.call require_admin adminUser = Except.ok adminUser := by
  have h := roleChecker_gate_correct ["1"] adminUser
  exact h.2.2.2.2.mpr (by decide)

/-- Helper: authentication returns `some u` exactly when the lookup finds
`u`, the password verifies against the stored hash, and `u` is active. -/
theorem authenticate_user_some_iff (verify : String → String → Bool) (db : List User)
    (identifier password : String) (u : User) :
    authenticate_user verify db identifier password = some u ↔
      get_user_by_username_or_email db identifier = some u ∧
      verify password u.password_hash = true ∧ u.is_active = true := by
  unfold authenticate_user
  cases hl : get_user_by_username_or_email db identifier with
  | none => simp [hl]
  | some w =>
      by_cases hv : verify password w.password_hash = true
      · by_cases ha : w.is_active = true
        · simp only [hl, hv, ha, Bool.not_true, Bool.false_eq_true, if_false,
            Option.some.injEq]
          constructor
          · intro h; subst h; exact ⟨rfl, hv, ha⟩
          · rintro ⟨h1, -, -⟩; exact h1
        · rw [Bool.not_eq_true] at ha
          simp only [hl, hv, ha, Bool.not_true, Bool.not_false, Bool.false_eq_true,
            if_false, if_true, Option.some.injEq]
          constructor
          · intro h; cases h
          · rintro ⟨rfl, -, h3⟩; rw [ha] at h3; cases h3
      · rw [Bool.not_eq_true] at hv
        simp only [hl, hv, Bool.not_false, if_true, Option.some.injEq]
        constructor
        · intro h; cases h
        · rintro ⟨rfl, h2, -⟩; rw [hv] at h2; cases h2

/-- C3: `authenticate` returns the user record iff a record matches the
identifier by exact username-or-email equality, the password verifies
against the stored hash, and the account is active; each of the three
failure causes (no match, bad password, inactive) returns the same `none`
sentinel rather than raising. -/
theorem authenticate_user_three_failures (verify : String → String → Bool)
    (db : List User) (identifier password : String) :
    (∀ u, authenticate_user verify db identifier password = some u ↔
      get_user_by_username_or_email db identifier = some u ∧
      verify password u.password_hash = true ∧ u.is_active = true) ∧
    (get_user_by_username_or_email db identifier = none →
      authenticate_user verify db identifier password = none) ∧
    (∀ u, get_user_by_username_or_email db identifier = some u →
      verify password u.password_hash = false →
      authenticate_user verify db identifier password = none) ∧
    (∀ u, get_user_by_username_or_email db identifier = some u →
      u.is_active = false →
      authenticate_user verify db identifier password = none) := by
  refine ⟨fun u => authenticate_user_some_iff verify db identifier password u,
    fun h => by simp [authenticate_user, h],
    fun u hu hv => by simp [authenticate_user, hu, hv],
    fun u hu ha => ?_⟩
  simp only [authenticate_user, hu]
  cases hv2 : verify password u.password_hash with
  | false => simp [hv2]
  | true => simp [hv2, ha]

/-- Witness for C3: alice authenticates with her correct password against
the sample store. -/
theorem authenticate_user_three_failures_witness :
    authenticate_user sampleVerify sampleDb "alice" "alicepw" = some aliceUser := by
  have h := authenticate_user_three_failures sampleVerify sampleDb "alice" "alicepw"
  exact (h.1 aliceUser).mpr ⟨by decide, by decide, by decide⟩

/-- C10: at bearer-token resolution, a token that verifies to a subject
whose user exists but is inactive is rejected with the 400 "Inactive user"
error, while a token that does not verify, or whose subject matches no
user, gets the generic 401 "Could not validate credentials" error; the two
errors are distinct. -/
theorem get_current_user_inactive_distinct (verify_token : String → Option String)
    (db : List User) (token : String) :
    (verify_token token = none →
      get_current_user verify_token db token = Except.error credentialsExc) ∧
    (∀ username, verify_token token = some username →
      get_user_by_username db username = none →
      get_current_user verify_token db token = Except.error credentialsExc) ∧
    (∀ username u, verify_token token = some username →
      get_user_by_username db username = some u →
      u.is_active = false →
      get_current_user verify_token db token = Except.error inactiveUserErr) ∧
    inactiveUserErr ≠ credentialsExc ∧
    inactiveUserErr.status = 400 ∧ credentialsExc.status = 401 := by
  refine ⟨fun h => by simp [get_current_user, h],
    fun username h1 h2 => by simp [get_current_user, h1, h2],
    fun username u h1 h2 h3 => by simp [get_current_user, h1, h2, h3],
    by decide, rfl, rfl⟩

/-- Witness for C10: the inactive sample user's valid token is rejected
with the 400 "Inactive user" error. -/
theorem get_current_user_inactive_distinct_witness :
    get_current_user sampleVerifyToken sampleDb "tok-bob" = Except.error inactiveUserErr := by
  have h := get_current_user_inactive_distinct sampleVerifyToken sampleDb "tok-bob"
  exact h.2.2.1 "bob" bobUser (by decide) (by decide) (by decide)

/-- C4: registration fails with the duplicate-username error when the
username pre-check (performed first) hits, with the duplicate-email error
when only the email pre-check hits, and a uniqueness violation raised by
the store at insert time is mapped to the generic registration-conflict
error; the three errors are pairwise distinct. -/
theorem register_duplicate_checks (hash : String → String) (nid now : Nat)
    (db0 db1 : List User) (user_data : UserCreate) :
    (get_user_by_username db0 user_data.username ≠ none →
      register hash nid now db0 db1 user_data =
        (db1, Except.error usernameRegisteredErr)) ∧
    (get_user_by_username db0 user_data.username = none →
      get_user_by_email db0 user_data.email ≠ none →
      register hash nid now db0 db1 user_data =
        (db1, Except.error emailRegisteredErr)) ∧
    (get_user_by_username db0 user_data.username = none →
      get_user_by_email db0 user_data.email = none →
      violates_unique db1 user_data.username user_data.email = true →
      register hash nid now db0 db1 user_data =
        (db1, Except.error registrationConflictErr)) ∧
    usernameRegisteredErr ≠ emailRegisteredErr ∧
    registrationConflictErr ≠ usernameRegisteredErr ∧
    registrationConflictErr ≠ emailRegisteredErr := by
  refine ⟨fun h => ?_, fun h1 h2 => ?_, fun h1 h2 h3 => ?_,
    by decide, by decide, by decide⟩
  · cases hu : get_user_by_username db0 user_data.username with
    | none => exact absurd hu h
    | some w => simp [register, hu]
  · cases he : get_user_by_email db0 user_data.email with
    | none => exact absurd he h2
    | some w => simp [register, h1, he]
  · have hins : insert_user db1 (create_user hash nid now user_data "3") =
        Except.error () := by
      simp [insert_user, create_user, h3]
    simp [register, h1, h2, hins]

/-- Witness for C4: registering carol against a store that already holds a
row with her username yields the duplicate-username error. -/
theorem register_duplicate_checks_witness :
    register sampleHash 3 0
        (sampleDb ++ [create_user sampleHash 4 0 carolCreate "3"]) sampleDb carolCreate =
      ((sampleDb : List User), Except.error usernameRegisteredErr) := by
  have h := register_duplicate_checks sampleHash 3 0
    (sampleDb ++ [create_user sampleHash 4 0 carolCreate "3"]) sampleDb carolCreate
  exact h.1 (by decide)

/-- C5: every successfully registered user is persisted and returned with
the hardcoded default role string "3" and an active flag, for every
registration input. -/
theorem register_default_role (hash : String → String) (nid now : Nat)
    (db0 db1 db2 : List User) (user_data : UserCreate) (resp : UserResponse)
    (h : register hash nid now db0 db1 user_data = (db2, Except.ok resp)) :
    resp.user_level_id = some "3" ∧ resp.is_active = true ∧
    create_user hash nid now user_data "3" ∈ db2 ∧
    (create_user hash nid now user_data "3").user_level_id = some "3" ∧
    (create_user hash nid now user_data "3").is_active = true := by
  unfold register at h
  cases hu : get_user_by_username db0 user_data.username with
  | some w => simp [hu] at h
  | none =>
    simp only [hu] at h
    cases he : get_user_by_email db0 user_data.email with
    | some w => simp [he] at h
    | none =>
      simp only [he] at h
      cases hi : insert_user db1 (create_user hash nid now user_data "3") with
      | error e => simp [hi] at h
      | ok dbn =>
        simp only [hi, Prod.mk.injEq, Except.ok.injEq] at h
        obtain ⟨hdb, hr⟩ := h
        subst hdb
        subst hr
        have hmem : create_user hash nid now user_data "3" ∈ dbn := by
          unfold insert_user at hi
          split at hi
          · cases hi
          · injection hi with hi
            subst hi
            simp
        exact ⟨rfl, rfl, hmem, rfl, rfl⟩

/-- Witness for C5: registering carol against the sample store returns the
"3" role and active flag, and persists the created row. -/
theorem register_default_role_witness :
    (UserResponse.model_validate (create_user sampleHash 3 0 carolCreate "3")).user_level_id =
        some "3" ∧
    (UserResponse.model_validate (create_user sampleHash 3 0 carolCreate "3")).is_active = true ∧
    create_user sampleHash 3 0 carolCreate "3" ∈
        sampleDb ++ [create_user sampleHash 3 0 carolCreate "3"] ∧
    (create_user sampleHash 3 0 carolCreate "3").user_level_id = some "3" ∧
    (create_user sampleHash 3 0 carolCreate "3").is_active = true :=
  register_default_role sampleHash 3 0 sampleDb sampleDb
    (sampleDb ++ [create_user sampleHash 3 0 carolCreate "3"]) carolCreate
    (UserResponse.model_validate (create_user sampleHash 3 0 carolCreate "3")) (by rfl)

/-- C6: the registration response is fully independent of the password (any
password and any hasher yield the same response outcome), and the public
view's serialized field names contain no password field of any kind. -/
theorem register_response_no_password (hash1 hash2 : String → String) (nid now : Nat)
    (db0 db1 : List User) (user_data : UserCreate) (p1 p2 : String) :
    ((register hash1 nid now db0 db1 (setPassword user_data p1)).2 =
      (register hash2 nid now db0 db1 (setPassword user_data p2)).2) ∧
    (∀ r : UserResponse, (UserResponse.toJson r).map Prod.fst = responseFieldNames) ∧
    "password" ∉ responseFieldNames ∧ "password_hash" ∉ responseFieldNames := by
  refine ⟨?_, fun r => rfl, by decide, by decide⟩
  cases hu : get_user_by_username db0 user_data.username with
  | some w => simp [register, setPassword, hu]
  | none =>
    cases he : get_user_by_email db0 user_data.email with
    | some w => simp [register, setPassword, hu, he]
    | none =>
      cases hviol : violates_unique db1 user_data.username user_data.email with
      | true =>
          simp [register, setPassword, hu, he, insert_user, create_user, hviol]
      | false =>
          simp [register, setPassword, hu, he, insert_user, create_user, hviol,
            UserResponse.model_validate]

/-- Helper: the validator's scan finds exactly the first segment that is
outside the valid role set. -/
theorem find_first_not_valid (pre post : List String) (bad : String)
    (hpre : ∀ r ∈ pre, r ∈ valid_roles) (hbad : bad ∉ valid_roles) :
    ((pre ++ bad :: post).find? fun role => !(valid_roles.contains role)) = some bad := by
  induction pre with
  | nil =>
      simp only [List.nil_append]
      exact List.find?_cons_of_pos _ (by simpa using hbad)
  | cons a rest ih =>
      have ha : a ∈ valid_roles := hpre a (by simp)
      simp only [List.cons_append]
      rw [List.find?_cons_of_neg _ (by simpa using ha)]
      exact ih (fun r hr => hpre r (by simp [hr]))

/-- Helper: after replacing the row with the matching id, looking that id up
returns the replacement. -/
theorem findById_updateById (db : List User) (uid : Nat) (t u : User)
    (ht : findById db uid = some t) (hu : (u.user_id == uid) = true) :
    findById (updateById db uid u) uid = some u := by
  induction db with
  | nil => simp [findById] at ht
  | cons v rest ih =>
      by_cases hv : (v.user_id == uid) = true
      · simp [findById, updateById, List.find?, hv, hu]
      · rw [Bool.not_eq_true] at hv
        have ht2 : findById rest uid = some t := by
          simpa [findById, List.find?, hv] using ht
        have hrec := ih ht2
        simpa [findById, updateById, List.find?, hv] using hrec

/-- Helper: with an admin actor and an existing target, the role-assignment
route rejects a proposed CSV whose first non-valid trimmed segment is `bad`
with the 400 invalid-role error naming `bad`, leaving the store unchanged. -/
theorem assign_invalid_helper (db : List User) (actor : User) (uid : Nat)
    (role_ids : String) (pre post : List String) (bad : String)
    (hg : RoleChecker.call require_admin actor = Except.ok actor)
    (ht : findById db uid ≠ none)
    (hsplit : splitRoles role_ids = pre ++ bad :: post)
    (hpre : ∀ r ∈ pre, r ∈ valid_roles)
    (hbad : bad ∉ valid_roles) :
    assign_user_role db actor uid role_ids = (db, Except.error (invalidRoleErr bad)) := by
  cases htv : findById db uid with
  | none => exact absurd htv ht
  | some target =>
      have hfind := find_first_not_valid pre post bad hpre hbad
      rw [← hsplit] at hfind
      simp only [assign_user_role, hg, htv, hfind]

/-- C7: role assignment with any trimmed segment outside {"1","2","3"}
fails with the 400 invalid-role error naming the first offending code in
input order, and the store (hence the target's role string) is unchanged. -/
theorem assign_role_invalid_code (db : List User) (actor : User) (uid : Nat)
    (role_ids : String) (pre post : List String) (bad : String)
    (hg : RoleChecker.call require_admin actor = Except.ok actor)
    (ht : findById db uid ≠ none)
    (hsplit : splitRoles role_ids = pre ++ bad :: post)
    (hpre : ∀ r ∈ pre, r ∈ valid_roles)
    (hbad : bad ∉ valid_roles) :
    assign_user_role db actor uid role_ids = (db, Except.error (invalidRoleErr bad)) :=
  assign_invalid_helper db actor uid role_ids pre post bad hg ht hsplit hpre hbad

/-- Witness for C7: assigning `"5,6"` to alice fails naming `"5"` and leaves
the store unchanged. -/
theorem assign_role_invalid_code_witness :
    assign_user_role sampleDb adminUser 1 "5,6" =
      ((sampleDb : List User), Except.error (invalidRoleErr "5")) :=
  assign_role_invalid_code sampleDb adminUser 1 "5,6" [] ["6"] "5"
    (by rfl) (by decide) (by decide) (by decide) (by decide)

/-- C9: role assignment targeting an id with no user fails with the 404
user-not-found error and performs no mutation: the store is returned
unchanged. -/
theorem assign_role_user_not_found (db : List User) (actor : User) (uid : Nat)
    (role_ids : String)
    (hg : RoleChecker.call require_admin actor = Except.ok actor)
    (ht : findById db uid = none) :
    assign_user_role db actor uid role_ids = (db, Except.error userNotFoundErr) := by
  simp [assign_user_role, hg, ht]

/-- Witness for C9: assigning to the absent id 99 fails with 404 and the
sample store is unchanged. -/
theorem assign_role_user_not_found_witness :
    assign_user_role sampleDb adminUser 99 "1" =
      ((sampleDb : List User), Except.error userNotFoundErr) :=
  assign_role_user_not_found sampleDb adminUser 99 "1" (by rfl) (by decide)

/-- C8: assigning the valid role string `"2, 3"` (embedded whitespace)
stores the proposed string verbatim on the target row, and reading the
updated user's roles back through the comma-split-and-trim parse yields
`["2", "3"]`. -/
theorem assign_role_roundtrip (db : List User) (actor : User) (uid : Nat) (target : User)
    (hg : RoleChecker.call require_admin actor = Except.ok actor)
    (ht : findById db uid = some target) :
    assign_user_role db actor uid "2, 3" =
      (updateById db uid { target with user_level_id := some "2, 3" },
       Except.ok
         { message := "Roles assigned successfully to user " ++ target.username
           user_id := uid
           username := target.username
           new_roles := "2, 3"
           assigned_by := actor.username }) ∧
    findById (updateById db uid { target with user_level_id := some "2, 3" }) uid =
      some { target with user_level_id := some "2, 3" } ∧
    get_user_roles { target with user_level_id := some "2, 3" } = ["2", "3"] := by
  have hfind : ((splitRoles "2, 3").find? fun role => !(valid_roles.contains role)) = none := by
    decide
  have hid0 : (target.user_id == uid) = true := by
    have hf : List.find? (fun u : User => u.user_id == uid) db = some target := ht
    have h2 := List.find?_some hf
    exact h2
  have hid : (({ target with user_level_id := some "2, 3" } : User).user_id == uid) = true := hid0
  refine ⟨?_, findById_updateById db uid target _ ht hid, ?_⟩
  · simp only [assign_user_role, hg, ht, hfind]
  · show (if ("2, 3" : String) == "" then ([] : List String) else splitRoles "2, 3") = ["2", "3"]
    decide

/-- Witness for C8: the round trip on alice in the sample store. -/
theorem assign_role_roundtrip_witness :
    assign_user_role sampleDb adminUser 1 "2, 3" =
      (updateById sampleDb 1 { aliceUser with user_level_id := some "2, 3" },
       Except.ok
         { message := "Roles assigned successfully to user " ++ aliceUser.username
           user_id := 1
           username := aliceUser.username
           new_roles := "2, 3"
           assigned_by := adminUser.username }) ∧
    get_user_roles { aliceUser with user_level_id := some "2, 3" } = ["2", "3"] := by
  have h := assign_role_roundtrip sampleDb adminUser 1 aliceUser (by rfl) (by rfl)
  exact ⟨h.1, h.2.2⟩

/-- Counterexample for C2: the claim says an empty trimmed segment (input
`"1,"`) is not checked and not rejected; on the code, assigning `"1,"` to
alice is rejected with the 400 invalid-role error naming the empty code. -/
theorem assign_role_empty_segment_cex :
    assign_user_role sampleDb adminUser 1 "1," =
      ((sampleDb : List User), Except.error (invalidRoleErr "")) := by
  rfl

/-- C2 (amended): an empty trimmed segment produced by the proposed role
string IS checked against the valid code set and rejected with the
invalid-role error naming the empty code, like any other invalid segment. -/
theorem assign_role_empty_segment_rejected (db : List User) (actor : User) (uid : Nat)
    (role_ids : String) (pre post : List String)
    (hg : RoleChecker.call require_admin actor = Except.ok actor)
    (ht : findById db uid ≠ none)
    (hsplit : splitRoles role_ids = pre ++ "" :: post)
    (hpre : ∀ r ∈ pre, r ∈ valid_roles) :
    assign_user_role db actor uid role_ids = (db, Except.error (invalidRoleErr "")) :=
  assign_invalid_helper db actor uid role_ids pre post "" hg ht hsplit hpre (by decide)

/-- Witness for the amended C2: assigning `"3,"` to bob is rejected naming
the empty code. -/
theorem assign_role_empty_segment_rejected_witness :
    assign_user_role sampleDb adminUser 2 "3," =
      ((sampleDb : List User), Except.error (invalidRoleErr "")) :=
  assign_role_empty_segment_rejected sampleDb adminUser 2 "3," ["3"] []
    (by rfl) (by decide) (by decide) (by decide)

end UAC
